import Mathlib

/-!
Verification of tiny-tensorrt: version-compatibility layer
(`src/trt_version_compat.h`), engine-build routing and workspace
configuration (`Trt.cpp` excerpts in the compatibility guide), and the
INT8 calibration pipeline and cache (`Int8Calibrator.h`, spec §4.5-4.7).

Machine integers are modelled as `Nat`: TensorRT version components are
non-negative and no arithmetic here can overflow.
-/

namespace TinyTensorRT

/-! ## Version-compat macros, from `src/trt_version_compat.h` -/

/-- Embeds `TRT_VERSION_GE(major, minor, patch)` from
`src/trt_version_compat.h` lines 13-17, evaluated for a linked version
`(M, m, p)`:
`(M > major) || (M == major && m > minor) || (M == major && m == minor && p >= patch)`. -/
def TRT_VERSION_GE (M m p major minor patch : Nat) : Bool :=
  (M > major) || (M == major && m > minor) || (M == major && m == minor && p ≥ patch)

/-- Embeds `TRT_VERSION_LT(major, minor, patch)` from
`src/trt_version_compat.h` lines 19-20: `!TRT_VERSION_GE(major, minor, patch)`. -/
def TRT_VERSION_LT (M m p major minor patch : Nat) : Bool :=
  !TRT_VERSION_GE M m p major minor patch

/-- Lexicographic ≥ on version triplets (major, then minor, then patch);
the order the spec claims `TRT_VERSION_GE` decides. -/
def versionLexGE (M m p major minor patch : Nat) : Prop :=
  major < M ∨ (major = M ∧ minor < m) ∨ (major = M ∧ minor = m ∧ patch ≤ p)

/-- Embeds the `TRT_NOEXCEPT` definition (`src/trt_version_compat.h`
lines 22-27): `true` when the macro expands to `noexcept`
(`NV_TENSORRT_MAJOR >= 8`), `false` when it expands to nothing. -/
def trtNoexceptDefined (M : Nat) : Bool := M ≥ 8

/-- Embeds `TRT_LEGACY_DESTROY` (`src/trt_version_compat.h` line 35):
`NV_TENSORRT_MAJOR < 8`. -/
def TRT_LEGACY_DESTROY (M : Nat) : Bool := M < 8

/-- Embeds `TRT_HAS_WORKSPACE_SIZE_API` (`src/trt_version_compat.h`
lines 38-39):
`NV_TENSORRT_MAJOR < 8 || (NV_TENSORRT_MAJOR == 8 && NV_TENSORRT_MINOR < 4)`. -/
def TRT_HAS_WORKSPACE_SIZE_API (M m : Nat) : Bool :=
  M < 8 || (M == 8 && m < 4)

/-- Embeds `TRT_LEGACY_ENQUEUE` (`src/trt_version_compat.h` line 48):
`NV_TENSORRT_MAJOR < 8`. -/
def TRT_LEGACY_ENQUEUE (M : Nat) : Bool := M < 8

/-- Embeds the conditional-compilation guard around `Trt::SetWorkpaceSize`
in `Trt.cpp` (quoted verbatim in the compatibility guide, "Workspace Size
API" section, and in REFACTORING-SUMMARY.md "Minor Version Pattern"):
`#if !(NV_TENSORRT_MAJOR >= 8 && NV_TENSORRT_MINOR >= 4)` — when `true`
the legacy `setMaxWorkspaceSize` path is compiled in. -/
def setWorkpaceSizeGuard (M m : Nat) : Bool :=
  !(M ≥ 8 && m ≥ 4)

/-! ## Capability descriptor (spec §3, §4.1), resolved from the macros -/

inductive OwnershipModel where
  | ExplicitDestroy
  | AutomaticRelease
  deriving DecidableEq, Repr

inductive EnqueueVariant where
  | LegacySignature
  | ModernSignature
  deriving DecidableEq, Repr

inductive WorkspaceMechanism where
  | LegacySetter
  | PoolLimitAPI
  deriving DecidableEq, Repr

inductive BuildMode where
  | BuildThenSerialize
  | BuildSerializedDirect
  deriving DecidableEq, Repr

structure CapabilityDescriptor where
  ownership_model : OwnershipModel
  enqueue_signature_variant : EnqueueVariant
  workspace_config_mechanism : WorkspaceMechanism
  build_mode : BuildMode
  deriving DecidableEq, Repr

inductive ResolveError where
  | UnsupportedVersion
  deriving DecidableEq, Repr

/-- Modelled from the spec: `resolve()` of spec §4.1 has no body under
`src/` (the repository realises the descriptor as compile-time macros).
Each field is computed from the corresponding macro of
`src/trt_version_compat.h`; the unsupported-version floor (major < 7) is
the documented minimum ("The codebase requires TRT 7.0+ minimum",
compatibility guide, Migration Notes). Pure function of the version
triplet; the patch component does not influence any field. -/
def resolve (M m _p : Nat) : Except ResolveError CapabilityDescriptor :=
  if M < 7 then .error .UnsupportedVersion
  else .ok
    { ownership_model :=
        if TRT_LEGACY_DESTROY M then .ExplicitDestroy else .AutomaticRelease
      enqueue_signature_variant :=
        if TRT_LEGACY_ENQUEUE M then .LegacySignature else .ModernSignature
      workspace_config_mechanism :=
        if TRT_HAS_WORKSPACE_SIZE_API M m then .LegacySetter else .PoolLimitAPI
      build_mode :=
        if M < 8 then .BuildThenSerialize else .BuildSerializedDirect }

/-! ## Engine-build routing, from the `Trt.cpp` excerpt in the
compatibility guide ("Engine Building API" section) -/

/-- A serialized engine blob: an opaque byte sequence (spec §3). -/
def SerializedEngine := List Nat

instance : DecidableEq SerializedEngine := by
  unfold SerializedEngine
  infer_instance

/-- The native build entry points the `Trt.cpp` excerpt calls, abstracted
over the blueprint and engine types (they live in the external native
library, outside this repository). -/
structure NativeBuildAPI (Blueprint Engine : Type) where
  buildEngineWithConfig : Blueprint → Engine
  serialize : Engine → SerializedEngine
  buildSerializedNetwork : Blueprint → SerializedEngine
  deserializeCudaEngine : SerializedEngine → Engine

/-- The build mode the `Trt.cpp` excerpt selects:
`#if NV_TENSORRT_MAJOR < 8` builds an engine then serializes it,
otherwise `buildSerializedNetwork` yields the blob directly. -/
def buildModeOf (M : Nat) : BuildMode :=
  if M < 8 then .BuildThenSerialize else .BuildSerializedDirect

/-- Embeds the two build sequences of the `Trt.cpp` excerpt. Returns the
serialized blob (`plan`) together with the engine object (`mEngine`):
* `BuildThenSerialize`: `mEngine = buildEngineWithConfig(...)`, then
  `plan = mEngine->serialize()`;
* `BuildSerializedDirect`: `plan = buildSerializedNetwork(...)`, then
  `mEngine = deserializeCudaEngine(plan)`. -/
def BuildEngine {Blueprint Engine : Type} (api : NativeBuildAPI Blueprint Engine)
    (mode : BuildMode) (bp : Blueprint) : SerializedEngine × Engine :=
  match mode with
  | .BuildThenSerialize =>
    let engine := api.buildEngineWithConfig bp
    (api.serialize engine, engine)
  | .BuildSerializedDirect =>
    let plan := api.buildSerializedNetwork bp
    (plan, api.deserializeCudaEngine plan)

/-- A concrete instantiation of the native build entry points, used to
exhibit satisfiability of the coherence hypothesis. -/
def demoNativeAPI : NativeBuildAPI Nat Nat where
  buildEngineWithConfig := fun bp => bp
  serialize := fun e => [e]
  buildSerializedNetwork := fun bp => [bp]
  deserializeCudaEngine := fun plan => plan.headD 0

/-! ## INT8 calibrator: data pipeline, cache, interface info
(`Int8Calibrator.h`; bodies of `Int8Calibrator.cpp` are not under `src/`
and are modelled from spec §4.5-4.7) -/

/-- The calibrator state of `Int8Calibrator.h`: calibrator type, batch
size, ordered sample-file list, and the batch cursor `mCurBatchIdx`
(initialised to 0 in the header). Device-buffer members are omitted: the
claims concern only which samples each batch carries. -/
structure TrtInt8Calibrator where
  mCalibratorType : String
  mBatchSize : Nat
  mFileList : List String
  mCurBatchIdx : Nat
  deriving DecidableEq, Repr

/-- Constructor of `Int8Calibrator.h`: the cursor starts at 0
(`int mCurBatchIdx = 0`). -/
def initCalibrator (calibratorType : String) (batchSize : Nat)
    (fileList : List String) : TrtInt8Calibrator :=
  { mCalibratorType := calibratorType, mBatchSize := batchSize,
    mFileList := fileList, mCurBatchIdx := 0 }

/-- Modelled from the spec: the body of `TrtInt8Calibrator::getBatch`
(`Int8Calibrator.cpp`) is not under `src/`; spec §4.5 — a single cursor
over the dataset advancing by `batchSize` samples per call, returning
none once the cursor would exceed the dataset length (sole termination
condition). Returns the yielded batch (if any) and the updated state. -/
def getBatch (s : TrtInt8Calibrator) : Option (List String) × TrtInt8Calibrator :=
  if s.mFileList.length ≤ s.mCurBatchIdx then (none, s)
  else (some ((s.mFileList.drop s.mCurBatchIdx).take s.mBatchSize),
    { s with mCurBatchIdx := s.mCurBatchIdx + s.mBatchSize })

/-- All batches yielded before the pipeline first signals completion,
computed with explicit fuel (each successful call advances the cursor by
`mBatchSize ≥ 1`, so `mFileList.length + 1` calls always suffice). -/
def batchesAux : Nat → TrtInt8Calibrator → List (List String)
  | 0, _ => []
  | fuel + 1, s =>
    match getBatch s with
    | (none, _) => []
    | (some b, s2) => b :: batchesAux fuel s2

/-- All batches yielded by a pipeline before completion. -/
def batches (s : TrtInt8Calibrator) : List (List String) :=
  batchesAux (s.mFileList.length + 1) s

/-- The results of `n` successive `getBatch` calls, threading the state. -/
def callResults : Nat → TrtInt8Calibrator → List (Option (List String))
  | 0, _ => []
  | n + 1, s => (getBatch s).1 :: callResults n (getBatch s).2

/-- Size of the final batch for a dataset of `n ≥ 1` samples and batch
size `B`: `n % B`, or `B` when `B` divides `n` (spec §8). -/
def lastBatchSize (n B : Nat) : Nat :=
  if n % B = 0 then B else n % B

/-- A concrete 10-file dataset for the spec §8 scenario. -/
def demoFiles10 : List String :=
  ["f0", "f1", "f2", "f3", "f4", "f5", "f6", "f7", "f8", "f9"]

/-- The spec §8 scenario pipeline: 10 files, batch size 4. -/
def demoPipeline10 : TrtInt8Calibrator :=
  initCalibrator "entropy" 4 demoFiles10

/-- The spec §8 scenario pipeline after all three batches were consumed:
the cursor (12) is past the dataset length (10). -/
def exhaustedPipeline10 : TrtInt8Calibrator :=
  { mCalibratorType := "entropy", mBatchSize := 4,
    mFileList := demoFiles10, mCurBatchIdx := 12 }

/-- The deterministic configuration fingerprint a cache entry is keyed
by: hash inputs are calibrator type + batch size + dataset identity
(spec §3, `CalibrationCache`). -/
structure CalibrationFingerprint where
  calibratorType : String
  batchSize : Nat
  datasetId : String
  deriving DecidableEq, Repr

/-- A concrete fingerprint for dataset "setA". -/
def fpSetA : CalibrationFingerprint :=
  { calibratorType := "entropy", batchSize := 8, datasetId := "setA" }

/-- A concrete fingerprint for dataset "setB"; differs from `fpSetA`. -/
def fpSetB : CalibrationFingerprint :=
  { calibratorType := "entropy", batchSize := 8, datasetId := "setB" }

/-- The path-addressed store backing the calibration cache
(`mCalibrateCachePath`): absent, unreadable, or holding one blob with
the fingerprint that produced it (spec §3, §4.6). -/
inductive CacheStore where
  | absent
  | unreadable
  | stored (fp : CalibrationFingerprint) (blob : List Nat)
  deriving DecidableEq, Repr

/-- Modelled from the spec: the body of
`TrtInt8Calibrator::writeCalibrationCache` (`Int8Calibrator.cpp`) is not
under `src/`; spec §4.6 — `save(fingerprint, bytes)` overwrites any prior
entry for that fingerprint (not additive). -/
def writeCalibrationCache (_st : CacheStore) (fp : CalibrationFingerprint)
    (bytes : List Nat) : CacheStore :=
  .stored fp bytes

/-- Modelled from the spec: the body of
`TrtInt8Calibrator::readCalibrationCache` (`Int8Calibrator.cpp`) is not
under `src/`; spec §4.6 — `load(fingerprint)` returns none when the store
is absent, unreadable, or its stored fingerprint does not match; the
stored blob only when the fingerprints agree. -/
def readCalibrationCache (st : CacheStore) (fp : CalibrationFingerprint) :
    Option (List Nat) :=
  match st with
  | .stored fp2 blob => if fp2 = fp then some blob else none
  | _ => none

/-- The (name, version) pair answering the interface-identity negotiation
query (spec §4.7). -/
structure InterfaceInfo where
  kind : String
  major : Nat
  minor : Nat
  deriving DecidableEq, Repr

/-- Embeds the guard of `Int8Calibrator.h`: `getInterfaceInfo` is declared
only under `#if NV_TENSORRT_MAJOR >= 10` (the newest native contract
generation). -/
def interfaceInfoDeclared (M : Nat) : Bool := M ≥ 10

/-- Modelled from the spec: the body of
`TrtInt8Calibrator::getInterfaceInfo` (`Int8Calibrator.cpp`) is not under
`src/`; spec §4.7 — purely declarative, returns a fixed (name, version)
pair identifying the controller's protocol version, reading no mutable
state. -/
def getInterfaceInfo (_s : TrtInt8Calibrator) : InterfaceInfo :=
  { kind := "IInt8Calibrator", major := 1, minor := 0 }

end TinyTensorRT

namespace TinyTensorRT

/-- C9: `TRT_VERSION_GE(a, b, c)` evaluated for linked version `(M, m, p)`
holds exactly when `(M, m, p) ≥ (a, b, c)` lexicographically, and
`TRT_VERSION_LT(a, b, c)` is its exact boolean negation. -/
theorem trt_version_ge_lexicographic (M m p a b c : Nat) :
    (TRT_VERSION_GE M m p a b c = true ↔ versionLexGE M m p a b c) ∧
    TRT_VERSION_LT M m p a b c = !TRT_VERSION_GE M m p a b c := by
  constructor
  · simp only [TRT_VERSION_GE, versionLexGE, Bool.or_eq_true, Bool.and_eq_true,
      decide_eq_true_eq, beq_iff_eq]
    omega
  · rfl

/-- C10: the capability flags that switch at the major-version-8 boundary
agree: `TRT_LEGACY_DESTROY`, `TRT_LEGACY_ENQUEUE`, and the absence of the
`noexcept` specifier all hold exactly when the major version is below 8,
so a resolved descriptor never mixes a legacy value of one with a modern
value of another. -/
theorem major8_boundary_flags_agree (M m p : Nat) :
    (TRT_LEGACY_DESTROY M = true ↔ M < 8) ∧
    (TRT_LEGACY_ENQUEUE M = true ↔ M < 8) ∧
    (trtNoexceptDefined M = false ↔ M < 8) ∧
    (∀ d, resolve M m p = .ok d →
      (d.ownership_model = .ExplicitDestroy ↔
        d.enqueue_signature_variant = .LegacySignature)) := by
  refine ⟨by simp [TRT_LEGACY_DESTROY], by simp [TRT_LEGACY_ENQUEUE],
    by simp [trtNoexceptDefined], ?_⟩
  intro d hd
  unfold resolve at hd
  split at hd
  · exact absurd hd (by simp)
  · cases hd
    by_cases h8 : M < 8 <;>
      simp [TRT_LEGACY_DESTROY, TRT_LEGACY_ENQUEUE, h8]

/-- Witness for C10: instantiated at version (8, 0, 0), discharging the
hypothesis of the descriptor clause at the concrete resolved descriptor. -/
theorem major8_boundary_flags_agree_witness :
    (TRT_LEGACY_DESTROY 8 = true ↔ (8 : Nat) < 8) ∧
    (CapabilityDescriptor.ownership_model
        { ownership_model := .AutomaticRelease
          enqueue_signature_variant := .ModernSignature
          workspace_config_mechanism := .LegacySetter
          build_mode := .BuildSerializedDirect } = .ExplicitDestroy ↔
      CapabilityDescriptor.enqueue_signature_variant
        { ownership_model := .AutomaticRelease
          enqueue_signature_variant := .ModernSignature
          workspace_config_mechanism := .LegacySetter
          build_mode := .BuildSerializedDirect } = .LegacySignature) :=
  ⟨(major8_boundary_flags_agree 8 0 0).1,
   (major8_boundary_flags_agree 8 0 0).2.2.2 _ (by rfl)⟩

/-- C8: `resolve` is a pure function of the version triplet whose only
failure is the unsupported-version signal, raised exactly when the major
version is below 7; for every major version ≥ 7 it succeeds with a
descriptor. -/
theorem resolve_floor_seven (M m p : Nat) :
    (resolve M m p = .error .UnsupportedVersion ↔ M < 7) ∧
    (7 ≤ M → ∃ d, resolve M m p = .ok d) := by
  unfold resolve
  constructor
  · split
    · simpa
    · simp; omega
  · intro h7
    rw [if_neg (by omega)]
    exact ⟨_, rfl⟩

/-- C5 evidence: at linked version 10.0 the `Trt.cpp` guard
`!(NV_TENSORRT_MAJOR >= 8 && NV_TENSORRT_MINOR >= 4)` compiles the legacy
`setMaxWorkspaceSize` path in, while `TRT_HAS_WORKSPACE_SIZE_API` is
false and the resolved descriptor's `workspace_config_mechanism` is
`PoolLimitAPI` (version 10.0 is not lexicographically below 8.4): the
builder does not apply the workspace configuration through the mechanism
selected by `workspace_config_mechanism`. -/
theorem workspace_guard_contradicts_descriptor :
    setWorkpaceSizeGuard 10 0 = true ∧
    TRT_HAS_WORKSPACE_SIZE_API 10 0 = false ∧
    TRT_VERSION_LT 10 0 0 8 4 0 = false ∧
    resolve 10 0 0 = Except.ok
      { ownership_model := .AutomaticRelease
        enqueue_signature_variant := .ModernSignature
        workspace_config_mechanism := .PoolLimitAPI
        build_mode := .BuildSerializedDirect } :=
  ⟨by decide, by decide, by decide, by rfl⟩

/-- C6: both build sequences of the `Trt.cpp` excerpt return a value of
the one external type `SerializedEngine`, and — provided the native
library's direct-serialization entry point agrees with serializing a
built engine — the two routes yield the same blob for the same blueprint,
so downstream build-mode-agnostic code observes no difference. -/
theorem build_modes_observationally_equivalent {Blueprint Engine : Type}
    (api : NativeBuildAPI Blueprint Engine)
    (hcoh : ∀ bp, api.serialize (api.buildEngineWithConfig bp)
      = api.buildSerializedNetwork bp)
    (mode : BuildMode) (bp : Blueprint) :
    (BuildEngine api mode bp).1 = api.buildSerializedNetwork bp := by
  cases mode with
  | BuildThenSerialize => exact hcoh bp
  | BuildSerializedDirect => rfl

/-- Witness for C6: the concrete native API `demoNativeAPI` satisfies the
coherence hypothesis, and the `BuildThenSerialize` route on blueprint 3
produces the directly-serialized blob. -/
theorem build_modes_observationally_equivalent_witness :
    (BuildEngine demoNativeAPI .BuildThenSerialize 3).1
      = demoNativeAPI.buildSerializedNetwork 3 :=
  build_modes_observationally_equivalent demoNativeAPI (fun _ => rfl)
    .BuildThenSerialize 3

/-- Witness for C8: at version (7, 0, 0) the hypothesis `7 ≤ 7` is
discharged and resolution succeeds; at (6, 5, 1) it fails. -/
theorem resolve_floor_seven_witness :
    (∃ d, resolve 7 0 0 = .ok d) ∧
      resolve 6 5 1 = .error .UnsupportedVersion :=
  ⟨(resolve_floor_seven 7 0 0).2 (by decide),
   (resolve_floor_seven 6 5 1).1.mpr (by decide)⟩

end TinyTensorRT

namespace TinyTensorRT

theorem batchesAux_exhausted (fuel : Nat) (s : TrtInt8Calibrator)
    (h : s.mFileList.length ≤ s.mCurBatchIdx) : batchesAux fuel s = [] := by
  cases fuel with
  | zero => rfl
  | succ n => simp [batchesAux, getBatch, h]

theorem batchesAux_step (fuel : Nat) (s : TrtInt8Calibrator)
    (h : s.mCurBatchIdx < s.mFileList.length) :
    batchesAux (fuel + 1) s
      = (s.mFileList.drop s.mCurBatchIdx).take s.mBatchSize ::
        batchesAux fuel { s with mCurBatchIdx := s.mCurBatchIdx + s.mBatchSize } := by
  simp [batchesAux, getBatch, Nat.not_le.mpr h]

theorem batchesAux_flatten (fuel : Nat) : ∀ s : TrtInt8Calibrator,
    0 < s.mBatchSize → s.mFileList.length - s.mCurBatchIdx ≤ fuel →
    (batchesAux fuel s).flatten = s.mFileList.drop s.mCurBatchIdx := by
  induction fuel with
  | zero =>
    intro s _ hf
    exact (List.drop_eq_nil_of_le (by omega)).symm
  | succ n ih =>
    intro s hB hf
    by_cases h : s.mFileList.length ≤ s.mCurBatchIdx
    · rw [batchesAux_exhausted _ _ h, List.flatten_nil,
        List.drop_eq_nil_of_le h]
    · rw [batchesAux_step n s (by omega), List.flatten_cons,
        ih _ (by simpa) (by simp; omega)]
      simp only
      rw [← List.drop_drop, List.take_append_drop]

theorem ceil_div_step (N B : Nat) (hB : 0 < B) (hN : 1 ≤ N) :
    (N + B - 1) / B = (N - B + B - 1) / B + 1 := by
  rcases le_or_lt N B with hNB | hNB
  · have h2 : N - B = 0 := by omega
    rw [h2]
    have h3 : (0 + B - 1) / B = 0 := Nat.div_eq_of_lt (by omega)
    have h4 : (N + B - 1) / B = 1 := Nat.div_eq_of_lt_le (by omega) (by omega)
    omega
  · have h2 : N - B + B - 1 = N - 1 := by omega
    have h3 : N + B - 1 = (N - 1) + B := by omega
    rw [h2, h3, Nat.add_div_right _ hB]

theorem batchesAux_length (fuel : Nat) : ∀ s : TrtInt8Calibrator,
    0 < s.mBatchSize → s.mFileList.length - s.mCurBatchIdx ≤ fuel →
    (batchesAux fuel s).length
      = (s.mFileList.length - s.mCurBatchIdx + s.mBatchSize - 1) / s.mBatchSize := by
  induction fuel with
  | zero =>
    intro s hB hf
    have h0 : s.mFileList.length - s.mCurBatchIdx = 0 := by omega
    rw [h0]
    exact (Nat.div_eq_of_lt (by omega)).symm
  | succ n ih =>
    intro s hB hf
    by_cases h : s.mFileList.length ≤ s.mCurBatchIdx
    · rw [batchesAux_exhausted _ _ h]
      have h0 : s.mFileList.length - s.mCurBatchIdx = 0 := by omega
      rw [h0]
      exact (Nat.div_eq_of_lt (by omega)).symm
    · rw [batchesAux_step n s (by omega), List.length_cons,
        ih _ (by simpa) (by simp; omega)]
      simp only
      have h1 : s.mFileList.length - (s.mCurBatchIdx + s.mBatchSize)
          = s.mFileList.length - s.mCurBatchIdx - s.mBatchSize := by omega
      rw [h1]
      exact (ceil_div_step (s.mFileList.length - s.mCurBatchIdx)
        s.mBatchSize hB (by omega)).symm

theorem batchesAux_getLast (fuel : Nat) : ∀ s : TrtInt8Calibrator,
    0 < s.mBatchSize → s.mCurBatchIdx < s.mFileList.length →
    s.mFileList.length - s.mCurBatchIdx ≤ fuel →
    (batchesAux fuel s).getLast? = some (s.mFileList.drop
      (s.mFileList.length
        - lastBatchSize (s.mFileList.length - s.mCurBatchIdx) s.mBatchSize)) := by
  induction fuel with
  | zero => intro s _ hc hf; omega
  | succ n ih =>
    intro s hB hc hf
    rw [batchesAux_step n s hc]
    rcases le_or_lt (s.mFileList.length - s.mCurBatchIdx) s.mBatchSize
      with hNB | hNB
    · have hdone : batchesAux n
          { s with mCurBatchIdx := s.mCurBatchIdx + s.mBatchSize } = [] :=
        batchesAux_exhausted n _ (by simp; omega)
      rw [hdone, List.getLast?_singleton]
      have htake : (s.mFileList.drop s.mCurBatchIdx).take s.mBatchSize
          = s.mFileList.drop s.mCurBatchIdx :=
        List.take_of_length_le (by simp; omega)
      rw [htake]
      have hls : lastBatchSize (s.mFileList.length - s.mCurBatchIdx) s.mBatchSize
          = s.mFileList.length - s.mCurBatchIdx := by
        unfold lastBatchSize
        split
        next h0 =>
          have hge : s.mBatchSize ≤ s.mFileList.length - s.mCurBatchIdx :=
            Nat.le_of_dvd (by omega) (Nat.dvd_of_mod_eq_zero h0)
          omega
        next h0 =>
          refine Nat.mod_eq_of_lt ?_
          rcases Nat.lt_or_ge (s.mFileList.length - s.mCurBatchIdx) s.mBatchSize
            with hlt | hge
          · exact hlt
          · have he : s.mFileList.length - s.mCurBatchIdx = s.mBatchSize := by
              omega
            rw [he, Nat.mod_self] at h0
            exact absurd rfl h0
      rw [hls]
      have harg : s.mFileList.length - (s.mFileList.length - s.mCurBatchIdx)
          = s.mCurBatchIdx := by omega
      rw [harg]
    · have hrec := ih { s with mCurBatchIdx := s.mCurBatchIdx + s.mBatchSize }
        (by simpa) (by simp; omega) (by simp; omega)
      simp only at hrec
      have hne : batchesAux n
          { s with mCurBatchIdx := s.mCurBatchIdx + s.mBatchSize } ≠ [] := by
        intro hnil
        rw [hnil] at hrec
        simp at hrec
      obtain ⟨b, t, hbt⟩ := List.exists_cons_of_ne_nil hne
      rw [hbt, List.getLast?_cons_cons, ← hbt, hrec]
      have hmod : (s.mFileList.length - (s.mCurBatchIdx + s.mBatchSize))
            % s.mBatchSize
          = (s.mFileList.length - s.mCurBatchIdx) % s.mBatchSize := by
        have he : s.mFileList.length - s.mCurBatchIdx
            = (s.mFileList.length - (s.mCurBatchIdx + s.mBatchSize))
              + s.mBatchSize := by omega
        rw [he, Nat.add_mod_right]
      unfold lastBatchSize
      rw [hmod]

end TinyTensorRT

namespace TinyTensorRT

/-- C1: for every calibration dataset of length L ≥ 1 and every batch
size B > 0, the pipeline yields exactly ⌈L/B⌉ = (L + B - 1) / B
successful getBatch calls before it first signals completion; the yielded
batches concatenate to the dataset in original order, and the final batch
is the dataset suffix of length L mod B (or B, when B divides L). -/
theorem pipeline_yields_ceil_batches (calibratorType : String)
    (B : Nat) (files : List String)
    (hL : 1 ≤ files.length) (hB : 0 < B) :
    (batches (initCalibrator calibratorType B files)).length
        = (files.length + B - 1) / B ∧
    (batches (initCalibrator calibratorType B files)).flatten = files ∧
    (batches (initCalibrator calibratorType B files)).getLast?
        = some (files.drop (files.length - lastBatchSize files.length B)) ∧
    (files.drop (files.length - lastBatchSize files.length B)).length
        = lastBatchSize files.length B := by
  have hr : lastBatchSize files.length B ≤ files.length := by
    unfold lastBatchSize
    split
    next h0 => exact Nat.le_of_dvd (by omega) (Nat.dvd_of_mod_eq_zero h0)
    next h0 => exact Nat.mod_le _ _
  refine ⟨?_, ?_, ?_, ?_⟩
  · exact batchesAux_length (files.length + 1)
      (initCalibrator calibratorType B files) hB
      (by show files.length - 0 ≤ files.length + 1; omega)
  · exact batchesAux_flatten (files.length + 1)
      (initCalibrator calibratorType B files) hB
      (by show files.length - 0 ≤ files.length + 1; omega)
  · exact batchesAux_getLast (files.length + 1)
      (initCalibrator calibratorType B files) hB hL
      (by show files.length - 0 ≤ files.length + 1; omega)
  · rw [List.length_drop]
    omega

/-- Witness for C1: dataset ["a", "b", "c"] with batch size 2 — the
hypotheses 1 ≤ 3 and 0 < 2 are discharged concretely; the pipeline yields
⌈3/2⌉ = 2 batches whose final batch ["c"] has 3 mod 2 = 1 sample. -/
theorem pipeline_yields_ceil_batches_witness :
    (batches (initCalibrator "entropy" 2 ["a", "b", "c"])).length
        = (3 + 2 - 1) / 2 ∧
    (batches (initCalibrator "entropy" 2 ["a", "b", "c"])).flatten
        = ["a", "b", "c"] ∧
    (batches (initCalibrator "entropy" 2 ["a", "b", "c"])).getLast?
        = some ((["a", "b", "c"] : List String).drop (3 - lastBatchSize 3 2)) ∧
    ((["a", "b", "c"] : List String).drop (3 - lastBatchSize 3 2)).length
        = lastBatchSize 3 2 :=
  pipeline_yields_ceil_batches "entropy" 2 ["a", "b", "c"]
    (by decide) (by decide)

/-- C4: once getBatch has signaled completion the exhausted state is
absorbing — the state is left unchanged and every subsequent call signals
completion again rather than failing or yielding another batch;
concretely, 10 files with batch size 4 yield batches of sizes [4, 4, 2]
and both the 4th and the 5th call signal completion. -/
theorem getBatch_completion_absorbing (s : TrtInt8Calibrator)
    (h : (getBatch s).1 = none) :
    getBatch (getBatch s).2 = (none, (getBatch s).2) ∧
    (batches demoPipeline10).map List.length = [4, 4, 2] ∧
    callResults 5 demoPipeline10
      = [some ["f0", "f1", "f2", "f3"], some ["f4", "f5", "f6", "f7"],
         some ["f8", "f9"], none, none] := by
  refine ⟨?_, by rfl, by rfl⟩
  by_cases hc : s.mFileList.length ≤ s.mCurBatchIdx
  · simp [getBatch, hc]
  · simp [getBatch, hc] at h

/-- Witness for C4: applied to the concrete exhausted state with cursor
12 past the 10-file dataset, discharging the completion hypothesis. -/
theorem getBatch_completion_absorbing_witness :
    getBatch (getBatch exhaustedPipeline10).2
      = (none, (getBatch exhaustedPipeline10).2) :=
  (getBatch_completion_absorbing exhaustedPipeline10 (by rfl)).1

/-- C2: cache round-trip — saving bytes under a fingerprint and loading
with that same fingerprint returns exactly the saved bytes, from any
prior store state. -/
theorem cache_round_trip (st : CacheStore) (fp : CalibrationFingerprint)
    (bytes : List Nat) :
    readCalibrationCache (writeCalibrationCache st fp bytes) fp
      = some bytes := by
  simp [readCalibrationCache, writeCalibrationCache]

/-- C3: load yields a miss (none) exactly when the store is absent,
unreadable, or its stored fingerprint differs from the requested one; and
a blob is only ever returned when the store holds exactly that blob under
the requested fingerprint — a mismatched blob is never returned and no
error is raised (the function is total into Option). -/
theorem cache_mismatch_always_miss (st : CacheStore)
    (fp : CalibrationFingerprint) :
    ((st = .absent ∨ st = .unreadable ∨
        ∃ fp2 blob, st = .stored fp2 blob ∧ fp2 ≠ fp) ↔
      readCalibrationCache st fp = none) ∧
    ∀ blob, readCalibrationCache st fp = some blob → st = .stored fp blob := by
  cases st with
  | absent => simp [readCalibrationCache]
  | unreadable => simp [readCalibrationCache]
  | stored fp2 blob =>
    by_cases hfp : fp2 = fp
    · subst hfp
      simp [readCalibrationCache]
    · simp [readCalibrationCache, hfp]

/-- Witness for C3: with a stored entry for dataset "setA" queried with
the fingerprint of "setB", load misses; and the some-implies-match clause
is discharged at a concrete matching load. -/
theorem cache_mismatch_always_miss_witness :
    readCalibrationCache (.stored fpSetA [7, 7]) fpSetB = none ∧
    CacheStore.stored fpSetA [7, 7] = .stored fpSetA [7, 7] :=
  ⟨(cache_mismatch_always_miss (.stored fpSetA [7, 7]) fpSetB).1.mp
      (Or.inr (Or.inr ⟨fpSetA, [7, 7], rfl, by decide⟩)),
   (cache_mismatch_always_miss (.stored fpSetA [7, 7]) fpSetA).2 [7, 7]
     (by rfl)⟩

/-- C7: the interface-identity negotiation query is declared exactly on
the newest native contract generation (major version ≥ 10), and its
answer is the same fixed (name, version) pair on every call, independent
of the calibrator state. -/
theorem interface_identity_fixed (M : Nat) (s s2 : TrtInt8Calibrator) :
    (interfaceInfoDeclared M = true ↔ 10 ≤ M) ∧
    getInterfaceInfo s
      = { kind := "IInt8Calibrator", major := 1, minor := 0 } ∧
    getInterfaceInfo s = getInterfaceInfo s2 :=
  ⟨by simp [interfaceInfoDeclared], rfl, rfl⟩

end TinyTensorRT
